import Mathlib

/-!
Verification of the zustand-kit global store registry (`src/index.tsx`, with
the selector auto-equality engine from `src/index.tsx` of the devtools
variant).  The embedding models JavaScript runtime values shallowly: object
identity is represented by an explicit reference id, JS numbers keep the
`NaN` / `-0` special cases that `Object.is` distinguishes, and each store
operation is a pure state transformer on a `Store` record.
-/

namespace ZustandKit

/-- JS numbers, restricted to what the comparison semantics need: `NaN`,
negative zero, and ordinary (integral) numbers.  `int 0` is `+0`. -/
inductive JSNum : Type where
  | nan
  | negZero
  | int (n : Int)

/-- `Object.is` on numbers: `NaN` equals itself, `-0` differs from `+0`. -/
def jsnumIs : JSNum → JSNum → Bool
  | .nan, .nan => true
  | .negZero, .negZero => true
  | .int a, .int b => a == b
  | _, _ => false

/-- A JavaScript runtime value.  `vobj`/`varr`/`velem` carry a reference id
`ref` modelling object identity; `velem` is a React element (an object for
which `React.isValidElement` returns `true`). -/
inductive JSVal : Type where
  | vundef
  | vnull
  | vbool (b : Bool)
  | vnum (n : JSNum)
  | vstr (s : String)
  | vobj (ref : Nat) (fields : List (String × JSVal))
  | varr (ref : Nat) (elems : List JSVal)
  | velem (ref : Nat) (fields : List (String × JSVal))

/-- `Object.is(a, b)`: reference identity for objects, arrays and elements,
value identity (NaN-safe, `±0`-distinguishing) for primitives. -/
def objectIs : JSVal → JSVal → Bool
  | .vundef, .vundef => true
  | .vnull, .vnull => true
  | .vbool a, .vbool b => a == b
  | .vnum a, .vnum b => jsnumIs a b
  | .vstr a, .vstr b => a == b
  | .vobj r _, .vobj q _ => r == q
  | .varr r _, .varr q _ => r == q
  | .velem r _, .velem q _ => r == q
  | _, _ => false

/-- `typeof v === 'object'` (true for `null`, plain objects, arrays and
React elements). -/
def typeofObject : JSVal → Bool
  | .vnull => true
  | .vobj _ _ => true
  | .varr _ _ => true
  | .velem _ _ => true
  | _ => false

/-- `v !== null`. -/
def notNull : JSVal → Bool
  | .vnull => false
  | _ => true

/-- `typeof v === 'object' && v !== null && !Array.isArray(v)` — the
creation-time `isObject` test of `useGlobalState` (src/index.tsx line 103). -/
def isNonArrayObject : JSVal → Bool
  | .vobj _ _ => true
  | .velem _ _ => true
  | _ => false

/-- `typeof v === 'object' && v !== null` — the updater-side test of the
merge branch (src/index.tsx line 111); note arrays are NOT excluded here. -/
def isNonNullObject : JSVal → Bool
  | .vobj _ _ => true
  | .varr _ _ => true
  | .velem _ _ => true
  | _ => false

/-- Own enumerable string-keyed properties of a value, as consumed by object
spread `{ ...v }`: an object or element contributes its fields, an array its
index-keyed elements, a string its index-keyed characters, and every other
value contributes nothing. -/
def ownFields : JSVal → List (String × JSVal)
  | .vobj _ fs => fs
  | .velem _ fs => fs
  | .varr _ es => es.enum.map (fun p => (toString p.1, p.2))
  | .vstr s => s.toList.enum.map (fun p => (toString p.1, .vstr (toString p.2)))
  | _ => []

/-- Property lookup in a field list (first match, as JS objects have unique
keys). -/
def getF : List (String × JSVal) → String → Option JSVal
  | [], _ => none
  | (k, v) :: rest, q => if k = q then some v else getF rest q

/-- `CreateDataProperty`: overwrite an existing key in place, or append a new
key at the end — the per-property step of object spread. -/
def setField : List (String × JSVal) → String → JSVal → List (String × JSVal)
  | [], k, v => [(k, v)]
  | (k, w) :: rest, q, v =>
      if k = q then (q, v) :: rest else (k, w) :: setField rest q v

/-- `{ ...base, ...src }` on field lists: copy the properties of `src` into
`base` one at a time, in order. -/
def spreadFields (base src : List (String × JSVal)) : List (String × JSVal) :=
  src.foldl (fun acc p => setField acc p.1 p.2) base

/-- Property lookup on a value (used to observe merge results). -/
def getField (v : JSVal) (k : String) : Option JSVal :=
  getF (ownFields v) k

/-- A non-function argument to `setValue`, or a functional updater.  The
source discriminates the two cases with `typeof value === 'function'`
(src/index.tsx line 108). -/
inductive Updater : Type where
  | val (v : JSVal)
  | fn (f : JSVal → JSVal)

/-- One per-key zustand store, as created by `useGlobalState`
(src/index.tsx lines 102-140): the current `value`, the `initialState`
captured by the `reset` closure, the creation-time `isObject` flag captured
by the `setValue` closure, and a counter allocating fresh reference ids for
objects built by the merge branch. -/
structure Store : Type where
  value : JSVal
  initial : JSVal
  isObject : Bool
  nextRef : Nat

/-- Store creation (src/index.tsx lines 103-120): the initial value becomes
the current value, and `isObject` is computed once from its runtime shape. -/
def createStore (init : JSVal) : Store :=
  { value := init, initial := init, isObject := isNonArrayObject init, nextRef := 0 }

/-- The merge branch `set((state) => ({ value: { ...state.value, ...value } }))`
(src/index.tsx line 113): a fresh object holding the spread of the current
value followed by the updater. -/
def mergeValues (s : Store) (v : JSVal) : Store :=
  { s with
    value := .vobj s.nextRef (spreadFields (ownFields s.value) (ownFields v)),
    nextRef := s.nextRef + 1 }

/-- `setValue` (src/index.tsx lines 107-118): functional updaters fully
replace with `f(currentValue)`; otherwise the shallow-merge branch is taken
exactly when the creation-time `isObject` flag is set and the updater is a
non-null object; every other value is committed directly. -/
def setValue (s : Store) (u : Updater) : Store :=
  match u with
  | .fn f => { s with value := f s.value }
  | .val v =>
      if s.isObject && isNonNullObject v then mergeValues s v
      else { s with value := v }

/-- A store operation: a `setValue` call or a `reset` call. -/
inductive StoreOp : Type where
  | set (u : Updater)
  | reset

/-- `reset: () => set({ value: initialState })` (src/index.tsx line 119)
replaces the value with the captured initial state, bypassing `setValue`
and hence the merge branch. -/
def applyOp (s : Store) : StoreOp → Store
  | .set u => setValue s u
  | .reset => { s with value := s.initial }

/-- Run a sequence of store operations. -/
def runOps (s : Store) (ops : List StoreOp) : Store :=
  ops.foldl applyOp s

/-- The sequence of committed values: every `setValue`/`reset` call passes a
fresh partial to zustand's `set`, so every operation commits and notifies the
store-level listeners once. -/
def commitsOf : Store → List StoreOp → List JSVal
  | _, [] => []
  | s, op :: rest =>
      let s' := applyOp s op
      s'.value :: commitsOf s' rest

/-- The listener installed by `subscribeGlobalState` (src/index.tsx lines
297-307): starting from `prevValue = store.getState().value`, each committed
value fires `callback(newValue, prevValue)` exactly when
`!Object.is(newValue, prevValue)`, and then becomes the new `prevValue`.
Returns the list of `(newValue, prevValue)` callback invocations in order. -/
def subscriberCalls : JSVal → List JSVal → List (JSVal × JSVal)
  | _, [] => []
  | prev, v :: rest =>
      if objectIs v prev then subscriberCalls prev rest
      else (v, prev) :: subscriberCalls v rest

/-- The `storage` option of `useGlobalState`. -/
inductive StorageType : Type where
  | localStorage
  | sessionStorage
  | noStorage

/-- Options accepted by `useGlobalState` (src/index.tsx lines 47-58).  They
only configure the persistence middleware, which is an external collaborator
and does not change the value semantics modelled here. -/
structure GSOptions : Type where
  storage : StorageType := .noStorage
  storageKey : String := "global-state"

/-- The module-level `globalStates` map, keyed by the store key. -/
def Registry : Type := List (String × Store)

/-- `globalStates.get(key)`. -/
def lookupStore : Registry → String → Option Store
  | [], _ => none
  | (k, st) :: rest, q => if k = q then some st else lookupStore rest q

/-- Replace the store bound to an existing key (the in-place mutation a
`setValue`/`reset` call performs on the store object held in the map). -/
def updateStore : Registry → String → Store → Registry
  | [], _, _ => []
  | (k, st) :: rest, q, st' =>
      if k = q then (q, st') :: rest else (k, st) :: updateStore rest q st'

/-- The creation path of `useGlobalState` (src/index.tsx lines 102-142):
if the key is absent a fresh store is created from the supplied initial
state and inserted; if the key is present the existing store is returned and
the newly supplied initial state and options are ignored.  The options only
wire the persistence middleware and are irrelevant to the value model. -/
def getOrCreate (reg : Registry) (key : String) (init : JSVal)
    (_opts : GSOptions) : Store × Registry :=
  match lookupStore reg key with
  | some st => (st, reg)
  | none =>
      let st := createStore init
      (st, (key, st) :: reg)

/-- The error message thrown by the hooks that require an existing store
(src/index.tsx lines 191 and 230). -/
def notFoundMsg (key : String) : String :=
  "Global state with key \"" ++ key ++ "\" not found. Initialize it with useGlobalState first."

/-- `useGlobalSelector` lookup behaviour (src/index.tsx lines 183-197):
throws the not-found error when the key has no store, otherwise selects from
the current value.  The registry is returned to record that the hook never
writes to `globalStates`. -/
def useGlobalSelectorRun (reg : Registry) (key : String)
    (sel : JSVal → JSVal) : Except String JSVal × Registry :=
  match lookupStore reg key with
  | none => (.error (notFoundMsg key), reg)
  | some st => (.ok (sel st.value), reg)

/-- `useGlobalSetter` (src/index.tsx lines 226-239): throws the not-found
error when the key has no store, otherwise hands out the store's `setValue`. -/
def useGlobalSetterRun (reg : Registry) (key : String) :
    Except String (Updater → Store) × Registry :=
  match lookupStore reg key with
  | none => (.error (notFoundMsg key), reg)
  | some st => (.ok (fun u => setValue st u), reg)

/-- `getGlobalState` (src/index.tsx lines 246-249): `store?.getState().value`
returns `undefined` (modelled as `none`) for an unknown key, and never
reports a diagnostic (second component). -/
def getGlobalStateRun (reg : Registry) (key : String) :
    Option JSVal × Option String :=
  match lookupStore reg key with
  | none => (none, none)
  | some st => (some st.value, none)

/-- `setGlobalState` (src/index.tsx lines 258-270): on an unknown key it
warns (in non-production builds, `dev = true`) and does nothing; otherwise it
calls the store's `setValue`. -/
def setGlobalStateRun (dev : Bool) (reg : Registry) (key : String)
    (u : Updater) : Registry × Option String :=
  match lookupStore reg key with
  | none => (reg, if dev then some (notFoundMsg key) else none)
  | some st => (updateStore reg key (setValue st u), none)

/-- Result of `subscribeGlobalState`: either the no-op unsubscribe returned
for an unknown key, or an active subscription whose initial `prevValue` is
the store's value at subscribe time. -/
inductive SubscribeResult : Type where
  | noopUnsub
  | active (prevValue : JSVal)

/-- `subscribeGlobalState` (src/index.tsx lines 281-308): on an unknown key
it warns in non-production builds and returns a no-op unsubscribe; otherwise
it installs the identity-filtered listener with `prevValue` initialised to
the current value. -/
def subscribeGlobalStateRun (dev : Bool) (reg : Registry) (key : String) :
    SubscribeResult × Option String × Registry :=
  match lookupStore reg key with
  | none => (.noopUnsub, if dev then some (notFoundMsg key) else none, reg)
  | some st => (.active st.value, none, reg)

/-- `resetGlobalState` (src/index.tsx lines 315-327): on an unknown key it
warns in non-production builds and does nothing; otherwise it calls the
store's `reset`. -/
def resetGlobalStateRun (dev : Bool) (reg : Registry) (key : String) :
    Registry × Option String :=
  match lookupStore reg key with
  | none => (reg, if dev then some (notFoundMsg key) else none)
  | some st => (updateStore reg key (applyOp st .reset), none)

/-- `React.isValidElement`. -/
def isValidElement : JSVal → Bool
  | .velem _ _ => true
  | _ => false

/-- The auto-detection test of `useGlobalSelector` in the devtools variant
(part_002 lines 260-263): `initialValue !== null && typeof initialValue ===
'object' && !React.isValidElement(initialValue)`. -/
def shouldUseShallow (v : JSVal) : Bool :=
  notNull v && typeofObject v && !(isValidElement v)

/-- The classification the spec describes: a non-null object or array. -/
def isNonNullObjectOrArray (v : JSVal) : Bool :=
  notNull v && typeofObject v

/-- The two comparison paths `useGlobalSelector` can return through in auto
mode: `store(useShallow(wrappedSelector))` or `store(wrappedSelector)`
(part_002 lines 265-268). -/
inductive EqMode : Type where
  | shallow
  | identity
deriving DecidableEq

/-- One evaluation of `useGlobalSelector` with `equalityMode` unspecified
(part_002 lines 256-268): the hook body samples the selected value from the
current store state and picks the comparison path from that sample.  The
code runs this block on every render with no cached mode, so the decision is
a pure function of the evaluation's own selected value. -/
def autoDetectMode (stateValue : JSVal) (sel : JSVal → JSVal) : EqMode :=
  if shouldUseShallow (sel stateValue) then .shallow else .identity

/-! ### Invariants of the store closures -/

lemma setValue_isObject (s : Store) (u : Updater) :
    (setValue s u).isObject = s.isObject := by
  cases u with
  | fn f => rfl
  | val v =>
      simp only [setValue]
      split <;> rfl

lemma setValue_initial (s : Store) (u : Updater) :
    (setValue s u).initial = s.initial := by
  cases u with
  | fn f => rfl
  | val v =>
      simp only [setValue]
      split <;> rfl

lemma applyOp_isObject (s : Store) (op : StoreOp) :
    (applyOp s op).isObject = s.isObject := by
  cases op with
  | set u => exact setValue_isObject s u
  | reset => rfl

lemma applyOp_initial (s : Store) (op : StoreOp) :
    (applyOp s op).initial = s.initial := by
  cases op with
  | set u => exact setValue_initial s u
  | reset => rfl

lemma runOps_isObject (ops : List StoreOp) :
    ∀ s : Store, (runOps s ops).isObject = s.isObject := by
  induction ops with
  | nil => intro s; rfl
  | cons op rest ih =>
      intro s
      rw [show runOps s (op :: rest) = runOps (applyOp s op) rest from rfl,
        ih (applyOp s op), applyOp_isObject]

lemma runOps_initial (ops : List StoreOp) :
    ∀ s : Store, (runOps s ops).initial = s.initial := by
  induction ops with
  | nil => intro s; rfl
  | cons op rest ih =>
      intro s
      rw [show runOps s (op :: rest) = runOps (applyOp s op) rest from rfl,
        ih (applyOp s op), applyOp_initial]

/-! ### Lookup facts about the spread merge -/

lemma getF_setField_same (l : List (String × JSVal)) (k : String) (v : JSVal) :
    getF (setField l k v) k = some v := by
  induction l with
  | nil => simp [setField, getF]
  | cons p rest ih =>
      obtain ⟨q, w⟩ := p
      by_cases h : q = k
      · subst h; simp [setField, getF]
      · simp [setField, getF, h, ih]

lemma getF_setField_ne (l : List (String × JSVal)) (k q : String) (v : JSVal)
    (h : k ≠ q) : getF (setField l k v) q = getF l q := by
  induction l with
  | nil => simp [setField, getF, h]
  | cons p rest ih =>
      obtain ⟨k0, w⟩ := p
      by_cases hk : k0 = k
      · subst hk; simp [setField, getF, h]
      · by_cases hq : k0 = q <;> simp [setField, getF, hk, hq, ih, Ne.symm h]

lemma getF_none_of_not_mem (l : List (String × JSVal)) (k : String)
    (h : k ∉ l.map Prod.fst) : getF l k = none := by
  induction l with
  | nil => rfl
  | cons p rest ih =>
      obtain ⟨k0, w⟩ := p
      simp only [List.map_cons, List.mem_cons] at h
      push_neg at h
      simp [getF, Ne.symm h.1, ih h.2]

lemma getF_spread_of_none (src : List (String × JSVal)) :
    ∀ (base : List (String × JSVal)) (k : String), getF src k = none →
      getF (spreadFields base src) k = getF base k := by
  induction src with
  | nil => intro base k _; rfl
  | cons p rest ih =>
      intro base k h
      obtain ⟨k0, v0⟩ := p
      have h0 : ¬ k0 = k := by
        intro hk
        simp [getF, hk] at h
      have h1 : getF rest k = none := by simpa [getF, h0] using h
      rw [show spreadFields base ((k0, v0) :: rest)
            = spreadFields (setField base k0 v0) rest from rfl,
        ih _ _ h1, getF_setField_ne _ _ _ _ h0]

lemma getF_spread_of_some (src : List (String × JSVal)) :
    ∀ (base : List (String × JSVal)) (k : String) (w : JSVal),
      (src.map Prod.fst).Nodup → getF src k = some w →
      getF (spreadFields base src) k = some w := by
  induction src with
  | nil =>
      intro base k w _ h
      simp [getF] at h
  | cons p rest ih =>
      intro base k w hnd h
      obtain ⟨k0, v0⟩ := p
      rw [show spreadFields base ((k0, v0) :: rest)
            = spreadFields (setField base k0 v0) rest from rfl]
      simp only [List.map_cons, List.nodup_cons] at hnd
      by_cases h0 : k0 = k
      · subst h0
        have hw : v0 = w := by simpa [getF] using h
        have hr : getF rest k0 = none := getF_none_of_not_mem _ _ hnd.1
        rw [getF_spread_of_none rest _ _ hr, getF_setField_same, hw]
      · have h1 : getF rest k = some w := by simpa [getF, h0] using h
        exact ih _ _ _ hnd.2 h1

lemma getF_spread_none_iff (src base : List (String × JSVal)) (k : String)
    (hnd : (src.map Prod.fst).Nodup) :
    getF (spreadFields base src) k = none
      ↔ (getF src k = none ∧ getF base k = none) := by
  constructor
  · intro h
    cases hs : getF src k with
    | some w =>
        rw [getF_spread_of_some src base k w hnd hs] at h
        exact absurd h (by simp)
    | none =>
        exact ⟨rfl, by rwa [getF_spread_of_none src base k hs] at h⟩
  · intro hh
    rw [getF_spread_of_none src base k hh.1, hh.2]

/-! ### Facts about the identity comparison and the auto-mode test -/

lemma jsnumIs_self (n : JSNum) : jsnumIs n n = true := by
  cases n <;> simp [jsnumIs]

lemma objectIs_self (v : JSVal) : objectIs v v = true := by
  cases v <;> simp [objectIs, jsnumIs_self]

lemma shouldUseShallow_eq (v : JSVal) :
    shouldUseShallow v = (isNonNullObjectOrArray v && !(isValidElement v)) := by
  cases v <;> rfl

/-- The merge/replace behaviour of a non-function `setValue` call on any
store reachable from creation: the branch is decided by the shape of the
creation-time initial value and the updater, never by the current value. -/
lemma setValue_val_characterization (init : JSVal) (ops : List StoreOp)
    (v : JSVal) :
    (setValue (runOps (createStore init) ops) (.val v)).value =
      if isNonArrayObject init && isNonNullObject v then
        .vobj (runOps (createStore init) ops).nextRef
          (spreadFields (ownFields (runOps (createStore init) ops).value)
            (ownFields v))
      else v := by
  have hobj : (runOps (createStore init) ops).isObject = isNonArrayObject init :=
    runOps_isObject ops (createStore init)
  cases hc : isNonArrayObject init && isNonNullObject v with
  | false => simp [setValue, mergeValues, hobj, hc]
  | true => simp [setValue, mergeValues, hobj, hc]

/-! ### Claim theorems -/

/-- C1, counterexample.  The claim says the shallow-merge path is taken if
and only if the **current** value is a non-null non-array plain object and
the updater is a non-null **non-array** plain object.  Both directions fail
on the code: (i) a store created with initial value `0` whose current value
was made a plain object `{a: 1}` by a functional update still commits a
plain-object updater `{b: 2}` as a full replacement (field `a` is lost);
(ii) a store created with plain-object initial `{x: 1}` shallow-merges an
**array** updater `[9]` (yielding `{x: 1, "0": 9}`) instead of replacing. -/
theorem merge_not_decided_by_current_value :
    let s1 := setValue (createStore (.vnum (.int 0)))
      (.fn (fun _ => .vobj 100 [("a", .vnum (.int 1))]))
    let s2 := setValue s1 (.val (.vobj 200 [("b", .vnum (.int 2))]))
    let t1 := setValue (createStore (.vobj 7 [("x", .vnum (.int 1))]))
      (.val (.varr 5 [.vnum (.int 9)]))
    isNonArrayObject s1.value = true
    ∧ isNonArrayObject (.vobj 200 [("b", .vnum (.int 2))]) = true
    ∧ s2.value = .vobj 200 [("b", .vnum (.int 2))]
    ∧ getField s2.value "a" = none
    ∧ isNonArrayObject (.varr 5 [.vnum (.int 9)]) = false
    ∧ t1.value = .vobj 0 [("x", .vnum (.int 1)), ("0", .vnum (.int 9))]
    ∧ (t1.value = .varr 5 [.vnum (.int 9)] → False) := by
  exact ⟨rfl, rfl, rfl, rfl, rfl, rfl, fun h => nomatch h⟩

/-- C1, amended: for every store and every non-function updater, the
shallow-merge path is taken if and only if the initial value captured at
store creation is a non-null non-array plain object AND the updater is a
non-null object (plain object, array or other object); in every other
non-function case the updater is committed as a full replacement value. -/
theorem merge_decided_by_initial_shape (init : JSVal) (ops : List StoreOp)
    (v : JSVal) :
    (setValue (runOps (createStore init) ops) (.val v)).value =
      if isNonArrayObject init && isNonNullObject v then
        .vobj (runOps (createStore init) ops).nextRef
          (spreadFields (ownFields (runOps (createStore init) ops).value)
            (ownFields v))
      else v :=
  setValue_val_characterization init ops v

/-- C10: the merge-vs-replace decision for non-function updaters is fixed at
store creation from the shape of the initial value: a store whose initial
value is not a non-null non-array plain object commits every non-function
updater as a full replacement (even when the current value has since become
a plain object), and a store created with a plain-object initial value
shallow-merges every non-null object updater, arrays included. -/
theorem merge_policy_fixed_at_creation :
    (∀ (init : JSVal) (ops : List StoreOp) (v : JSVal),
        isNonArrayObject init = false →
        (setValue (runOps (createStore init) ops) (.val v)).value = v)
    ∧ (∀ (init : JSVal) (ops : List StoreOp) (v : JSVal),
        isNonArrayObject init = true → isNonNullObject v = true →
        (setValue (runOps (createStore init) ops) (.val v)).value =
          .vobj (runOps (createStore init) ops).nextRef
            (spreadFields (ownFields (runOps (createStore init) ops).value)
              (ownFields v))) := by
  constructor
  · intro init ops v h
    rw [setValue_val_characterization init ops v, h]
    rfl
  · intro init ops v h1 h2
    rw [setValue_val_characterization init ops v, h1, h2]
    rfl

/-- C10, witness: in a store created with initial value `0` whose current
value became the plain object `{a: 1}` through a functional update, the
plain-object updater `{c: 3}` is still committed as a full replacement; and
a store created with plain-object initial `{x: 1}` shallow-merges the array
updater `[9]`. -/
theorem merge_policy_fixed_at_creation_witness :
    (setValue (runOps (createStore (.vnum (.int 0)))
        [.set (.fn (fun _ => .vobj 50 [("a", .vnum (.int 1))]))])
      (.val (.vobj 60 [("c", .vnum (.int 3))]))).value
      = .vobj 60 [("c", .vnum (.int 3))]
    ∧ (setValue (runOps (createStore (.vobj 7 [("x", .vnum (.int 1))])) [])
        (.val (.varr 5 [.vnum (.int 9)]))).value
      = .vobj 0 [("x", .vnum (.int 1)), ("0", .vnum (.int 9))] := by
  constructor
  · exact merge_policy_fixed_at_creation.1 (.vnum (.int 0))
      [.set (.fn (fun _ => .vobj 50 [("a", .vnum (.int 1))]))]
      (.vobj 60 [("c", .vnum (.int 3))]) rfl
  · have h := merge_policy_fixed_at_creation.2 (.vobj 7 [("x", .vnum (.int 1))])
      [] (.varr 5 [.vnum (.int 9)]) rfl rfl
    simpa using h

/-- C3: for every reachable store and every functional updater `f`,
`set(f)` commits exactly `f(currentValue)` as a full replacement — shown in
particular on a plain-object store where the function's plain-object result
does not get merged with the previous value (field `a` is not preserved). -/
theorem functional_update_replaces (init : JSVal) (ops : List StoreOp)
    (f : JSVal → JSVal) :
    (setValue (runOps (createStore init) ops) (.fn f)).value
      = f (runOps (createStore init) ops).value
    ∧ (setValue (createStore (.vobj 0 [("a", .vnum (.int 1))]))
        (.fn (fun _ => .vobj 1 [("b", .vnum (.int 2))]))).value
      = .vobj 1 [("b", .vnum (.int 2))]
    ∧ getField (setValue (createStore (.vobj 0 [("a", .vnum (.int 1))]))
        (.fn (fun _ => .vobj 1 [("b", .vnum (.int 2))]))).value "a" = none :=
  ⟨rfl, rfl, rfl⟩

/-- C4: after any sequence of prior writes, the captured initial value is
unchanged, `reset()` commits exactly that value (the very same reference,
bypassing the merge logic), and a subsequent `get()` returns it; the initial
value also survives the reset itself, so every later reset restores the same
reference again. -/
theorem reset_restores_initial_reference (init : JSVal) (ops : List StoreOp) :
    (runOps (createStore init) ops).initial = init
    ∧ (applyOp (runOps (createStore init) ops) .reset).value = init
    ∧ (applyOp (runOps (createStore init) ops) .reset).initial = init := by
  have h : (runOps (createStore init) ops).initial = init :=
    runOps_initial ops (createStore init)
  exact ⟨h, by simp [applyOp, h], by simp [applyOp, h]⟩

/-- C2, counterexample.  The claim quantifies over every plain-object
current value, but the merge branch is gated on the creation-time shape: a
store created with the string initial `"s"`, whose current value became the
plain object `{p: 1}` via a direct write, commits the plain-object partial
`{q: 2}` as a full replacement — field `p` is lost instead of being kept by
the claimed shallow merge. -/
theorem merge_invariant_fails_without_object_initial :
    let u1 := setValue (createStore (.vstr "s"))
      (.val (.vobj 300 [("p", .vnum (.int 1))]))
    let u2 := setValue u1 (.val (.vobj 301 [("q", .vnum (.int 2))]))
    isNonArrayObject u1.value = true
    ∧ isNonArrayObject (.vobj 301 [("q", .vnum (.int 2))]) = true
    ∧ u2.value = .vobj 301 [("q", .vnum (.int 2))]
    ∧ getField u2.value "p" = none
    ∧ getField u2.value "q" = some (.vnum (.int 2)) :=
  ⟨rfl, rfl, rfl, rfl, rfl⟩

/-- C2, amended: in every store created with a plain-object initial value,
for every plain-object current value `v` and plain-object partial `p`,
`set(p)` commits exactly the shallow merge of `v` and `p`: every field named
in `p` takes `p`'s value, every field of `v` absent from `p` is unchanged,
and the result has no other fields. -/
theorem merge_invariant_for_object_initial_stores (init : JSVal)
    (ops : List StoreOp) (r rp : Nat) (vf pf : List (String × JSVal))
    (hinit : isNonArrayObject init = true)
    (hval : (runOps (createStore init) ops).value = .vobj r vf)
    (hnd : (pf.map Prod.fst).Nodup) (k : String) :
    (∀ w, getF pf k = some w →
        getField (setValue (runOps (createStore init) ops)
          (.val (.vobj rp pf))).value k = some w)
    ∧ (getF pf k = none →
        getField (setValue (runOps (createStore init) ops)
          (.val (.vobj rp pf))).value k = getF vf k)
    ∧ (getField (setValue (runOps (createStore init) ops)
          (.val (.vobj rp pf))).value k = none
        ↔ (getF pf k = none ∧ getF vf k = none)) := by
  have hchar := setValue_val_characterization init ops (.vobj rp pf)
  rw [hval] at hchar
  simp only [hinit, isNonNullObject, Bool.true_and, if_true, ownFields] at hchar
  refine ⟨?_, ?_, ?_⟩
  · intro w hw
    rw [hchar]
    simpa [getField, ownFields] using getF_spread_of_some pf vf k w hnd hw
  · intro hnone
    rw [hchar]
    simpa [getField, ownFields] using getF_spread_of_none pf vf k hnone
  · rw [hchar]
    simpa [getField, ownFields] using getF_spread_none_iff pf vf k hnd

/-- C2, witness (Scenario B): from current value
`{name: "John", age: 30}`, `set({name: "Jane"})` yields a value whose
`name` is `"Jane"` and whose `age` is still `30`. -/
theorem merge_invariant_scenario_b :
    getField (setValue
      (runOps (createStore
        (.vobj 0 [("name", .vstr "John"), ("age", .vnum (.int 30))])) [])
      (.val (.vobj 1 [("name", .vstr "Jane")]))).value "name"
        = some (.vstr "Jane")
    ∧ getField (setValue
      (runOps (createStore
        (.vobj 0 [("name", .vstr "John"), ("age", .vnum (.int 30))])) [])
      (.val (.vobj 1 [("name", .vstr "Jane")]))).value "age"
        = some (.vnum (.int 30)) := by
  constructor
  · exact (merge_invariant_for_object_initial_stores
      (.vobj 0 [("name", .vstr "John"), ("age", .vnum (.int 30))]) [] 0 1
      [("name", .vstr "John"), ("age", .vnum (.int 30))]
      [("name", .vstr "Jane")] rfl rfl (by simp) "name").1 (.vstr "Jane") rfl
  · exact (merge_invariant_for_object_initial_stores
      (.vobj 0 [("name", .vstr "John"), ("age", .vnum (.int 30))]) [] 0 1
      [("name", .vstr "John"), ("age", .vnum (.int 30))]
      [("name", .vstr "Jane")] rfl rfl (by simp) "age").2.1 rfl

/-- C5: a second `useGlobalState` call with an existing key is a no-op on
the registry: it returns the already-existing store and leaves the registry
unchanged, discarding the newly supplied initial value and options — in
particular, creating key `"k"` with initial value `1` and then again with
`99` leaves every accessor observing value `1`. -/
theorem create_existing_key_noop :
    (∀ (reg : Registry) (key : String) (st : Store) (init : JSVal)
        (opts : GSOptions),
        lookupStore reg key = some st →
        getOrCreate reg key init opts = (st, reg))
    ∧ (let r1 := (getOrCreate [] "k" (.vnum (.int 1)) {}).2
       (getOrCreate r1 "k" (.vnum (.int 99)) {}).1.value = .vnum (.int 1)
       ∧ (getOrCreate r1 "k" (.vnum (.int 99)) {}).2 = r1
       ∧ (getGlobalStateRun (getOrCreate r1 "k" (.vnum (.int 99)) {}).2
            "k").1 = some (.vnum (.int 1))) := by
  constructor
  · intro reg key st init opts h
    simp [getOrCreate, h]
  · exact ⟨rfl, rfl, rfl⟩

/-- C5, witness: with key `"k"` already bound to the store created from
initial value `1`, a creation call supplying `99` returns that existing
store and the unchanged registry. -/
theorem create_existing_key_noop_witness :
    getOrCreate [("k", createStore (.vnum (.int 1)))] "k" (.vnum (.int 99)) {}
      = (createStore (.vnum (.int 1)),
         [("k", createStore (.vnum (.int 1)))]) :=
  create_existing_key_noop.1 [("k", createStore (.vnum (.int 1)))] "k"
    (createStore (.vnum (.int 1))) (.vnum (.int 99)) {} rfl

/-- C6: for a key never created, `useGlobalSelector` and `useGlobalSetter`
raise a hard not-found failure whose message contains the key and instructs
the caller to initialize the store with `useGlobalState` first, and neither
operation modifies the registry. -/
theorem missing_key_hard_failure (reg : Registry) (key : String)
    (sel : JSVal → JSVal) (h : lookupStore reg key = none) :
    useGlobalSelectorRun reg key sel = (.error (notFoundMsg key), reg)
    ∧ useGlobalSetterRun reg key = (.error (notFoundMsg key), reg)
    ∧ (∃ pre post, notFoundMsg key = pre ++ key ++ post) := by
  refine ⟨?_, ?_, ⟨"Global state with key \"",
    "\" not found. Initialize it with useGlobalState first.", rfl⟩⟩
  · simp [useGlobalSelectorRun, h]
  · simp [useGlobalSetterRun, h]

/-- C6, witness: both component hooks fail with the not-found error on the
never-created key `"missing"` of the empty registry. -/
theorem missing_key_hard_failure_witness :
    useGlobalSelectorRun [] "missing" (fun v => v)
      = (.error (notFoundMsg "missing"), [])
    ∧ useGlobalSetterRun [] "missing" = (.error (notFoundMsg "missing"), []) := by
  have h := missing_key_hard_failure [] "missing" (fun v => v) rfl
  exact ⟨h.1, h.2.1⟩

/-- C7: for a key with no store, the non-component accessors fail softly:
`setGlobalState`, `subscribeGlobalState` and `resetGlobalState` leave the
registry unchanged and report a diagnostic (in non-production builds), while
`getGlobalState` returns the absent marker without reporting anything. -/
theorem missing_key_soft_failure (dev : Bool) (reg : Registry) (key : String)
    (u : Updater) (h : lookupStore reg key = none) :
    setGlobalStateRun dev reg key u
      = (reg, if dev then some (notFoundMsg key) else none)
    ∧ subscribeGlobalStateRun dev reg key
      = (.noopUnsub, if dev then some (notFoundMsg key) else none, reg)
    ∧ resetGlobalStateRun dev reg key
      = (reg, if dev then some (notFoundMsg key) else none)
    ∧ getGlobalStateRun reg key = (none, none) := by
  refine ⟨?_, ?_, ?_, ?_⟩ <;>
    simp [setGlobalStateRun, subscribeGlobalStateRun, resetGlobalStateRun,
      getGlobalStateRun, h]

/-- C7, witness: on the never-created key `"nope"` of the empty registry, in
a non-production build, the three writers warn and leave the registry empty
and the reader returns the absent marker silently. -/
theorem missing_key_soft_failure_witness :
    setGlobalStateRun true [] "nope" (.val (.vnum (.int 5)))
      = ([], some (notFoundMsg "nope"))
    ∧ subscribeGlobalStateRun true [] "nope"
      = (.noopUnsub, some (notFoundMsg "nope"), [])
    ∧ resetGlobalStateRun true [] "nope" = ([], some (notFoundMsg "nope"))
    ∧ getGlobalStateRun [] "nope" = (none, none) := by
  have h := missing_key_soft_failure true [] "nope" (.val (.vnum (.int 5))) rfl
  simpa using h

/-- C8: an external subscription starts observing the store's value at
subscribe time, and the callback then receives `(newValue, previousValue)`
exactly when the committed value differs from the previously observed one
under the NaN-safe identity comparison (`Object.is`): a commit fires the
callback iff it differs, two consecutive `set` calls committing the
identical value fire it exactly once, `NaN` is treated as equal to itself,
and `+0` and `-0` are distinguished. -/
theorem external_subscription_identity_filter :
    (∀ (dev : Bool) (reg : Registry) (key : String) (s : Store),
        lookupStore reg key = some s →
        subscribeGlobalStateRun dev reg key = (.active s.value, none, reg))
    ∧ (∀ (prev v : JSVal),
        (subscriberCalls prev [v]).length = if objectIs v prev then 0 else 1)
    ∧ (∀ (s : Store) (v : JSVal),
        isNonNullObject v = false → objectIs v s.value = false →
        subscriberCalls s.value
          (commitsOf s [.set (.val v), .set (.val v)]) = [(v, s.value)])
    ∧ objectIs (.vnum .nan) (.vnum .nan) = true
    ∧ objectIs (.vnum (.int 0)) (.vnum .negZero) = false := by
  refine ⟨?_, ?_, ?_, rfl, rfl⟩
  · intro dev reg key s h
    simp [subscribeGlobalStateRun, h]
  · intro prev v
    cases h : objectIs v prev <;> simp [subscriberCalls, h]
  · intro s v h1 h2
    simp [commitsOf, applyOp, setValue, h1, subscriberCalls, h2, objectIs_self]

/-- C8, witness (Scenario E): an external subscriber on a counter store with
value `0` sees `set(5)` then `set(5)` fire the callback exactly once, with
`(newValue, previousValue) = (5, 0)`. -/
theorem external_subscription_identity_filter_witness :
    subscribeGlobalStateRun true [("counter", createStore (.vnum (.int 0)))]
        "counter"
      = (.active (createStore (.vnum (.int 0))).value, none,
         [("counter", createStore (.vnum (.int 0)))])
    ∧ subscriberCalls (createStore (.vnum (.int 0))).value
        (commitsOf (createStore (.vnum (.int 0)))
          [.set (.val (.vnum (.int 5))), .set (.val (.vnum (.int 5)))])
      = [(.vnum (.int 5), (createStore (.vnum (.int 0))).value)]
    ∧ (subscriberCalls (.vnum (.int 0)) [.vnum (.int 5)]).length = 1 := by
  refine ⟨?_, ?_, ?_⟩
  · exact external_subscription_identity_filter.1 true
      [("counter", createStore (.vnum (.int 0)))] "counter"
      (createStore (.vnum (.int 0))) rfl
  · exact external_subscription_identity_filter.2.2.1
      (createStore (.vnum (.int 0))) (.vnum (.int 5)) rfl rfl
  · have h := external_subscription_identity_filter.2.1
      (.vnum (.int 0)) (.vnum (.int 5))
    simpa [objectIs, jsnumIs] using h

/-- C9, counterexample.  The claim says auto mode delegates to shallow
comparison whenever the newly selected value is a non-null object or array,
but the code additionally excludes React elements
(`!React.isValidElement(initialValue)`): a selector returning a React
element — a non-null object — is classified as identity, not shallow. -/
theorem auto_mode_react_element_identity :
    autoDetectMode (.vnum (.int 0)) (fun _ => .velem 0 []) = .identity
    ∧ isNonNullObjectOrArray (.velem 0 []) = true :=
  ⟨rfl, rfl⟩

/-- C9, amended: in auto equality mode the engine classifies each evaluation
from the runtime type of that evaluation's newly selected value — shallow
exactly when it is a non-null object or array that is not a valid React
element, identity otherwise.  The classification is a function of the
selected value alone (no per-subscription state), so a selector whose return
type varies between evaluations is re-classified per evaluation, as the two
concrete evaluations show. -/
theorem auto_mode_per_evaluation :
    (∀ (v : JSVal) (sel : JSVal → JSVal),
        autoDetectMode v sel = .shallow
          ↔ (isNonNullObjectOrArray (sel v) = true
              ∧ isValidElement (sel v) = false))
    ∧ (∀ (v1 v2 : JSVal) (sel1 sel2 : JSVal → JSVal),
        sel1 v1 = sel2 v2 → autoDetectMode v1 sel1 = autoDetectMode v2 sel2)
    ∧ autoDetectMode (.vnum (.int 0)) (fun v => v) = .identity
    ∧ autoDetectMode (.vobj 0 []) (fun v => v) = .shallow := by
  refine ⟨?_, ?_, rfl, rfl⟩
  · intro v sel
    rw [show autoDetectMode v sel
        = (if shouldUseShallow (sel v) then .shallow else .identity) from rfl,
      shouldUseShallow_eq]
    cases ha : isNonNullObjectOrArray (sel v) <;>
      cases hb : isValidElement (sel v) <;> simp [ha, hb]
  · intro v1 v2 sel1 sel2 h
    simp [autoDetectMode, h]

/-- C9, witness: two evaluations whose selected values coincide are
classified identically, and the classification criterion holds at the
concrete plain-object selection. -/
theorem auto_mode_per_evaluation_witness :
    autoDetectMode (.vnum (.int 0)) (fun _ => .vobj 3 [])
      = autoDetectMode (.vobj 9 []) (fun _ => .vobj 3 [])
    ∧ (autoDetectMode (.vobj 0 []) (fun v => v) = .shallow
        ↔ (isNonNullObjectOrArray (.vobj 0 []) = true
            ∧ isValidElement (.vobj 0 []) = false)) :=
  ⟨auto_mode_per_evaluation.2.1 (.vnum (.int 0)) (.vobj 9 [])
      (fun _ => .vobj 3 []) (fun _ => .vobj 3 []) rfl,
    auto_mode_per_evaluation.1 (.vobj 0 []) (fun v => v)⟩

end ZustandKit
